import Mathlib

/-
Shallow embedding of the MemoryPhantom remote-memory accessor
(src/MemoryPhantom.cpp together with src/C++/MemoryPhantom.h).

Modelling conventions:
- HANDLE values are Option Nat: none models a null handle.
- Addresses are Nat; uintptr_t arithmetic wraps modulo 2^64 (addOff),
  and the int offsets of the overloads are Int.
- The OS primitives are an environment (OSEnv):
  rpm models ReadProcessMemory: some bs means the call returned TRUE,
  reported bs.length transferred bytes and deposited bs at the front of
  the destination buffer; none means it returned FALSE and wrote
  nothing. wpm models WriteProcessMemory: some bw means TRUE with bw
  reported bytes written, none means FALSE. openProcess models
  OpenProcess; modules models EnumProcessModules (none means the call
  failed) together with the per-module GetModuleFileNameExA outcome
  (a path of none means that name query failed and the entry is
  skipped by the loop).
- Values are modelled by their object representation as byte lists
  (floats by their raw bytes, bool by one byte, wide strings by lists
  of 16-bit code units); ReadInt and ReadPtr additionally decode.
- An operation whose result is the same for every OSEnv performed no
  OS transfer call on that path; this is how the no-transfer clauses
  of the specification are rendered.
-/

structure Phantom where
  hProcess : Option Nat
  processId : Nat
deriving DecidableEq, Repr

structure ModEntry where
  base : Nat
  path : Option (List Nat)
deriving DecidableEq, Repr

structure OSEnv where
  rpm : Nat → Nat → Option (List Nat)
  wpm : Nat → List Nat → Option Nat
  openProcess : Nat → Nat → Option Nat
  modules : Option (List ModEntry)

/-- IsActive returns whether the handle is non-null, as in the source. -/
def IsActive (st : Phantom) : Bool :=
  st.hProcess.isSome

/-- GetPID returns the stored process identifier. -/
def GetPID (st : Phantom) : Nat :=
  st.processId

/-- World is the OS handle table: the list of currently open handles. -/
abbrev World := List Nat

/-- Detach: if a handle is held, CloseHandle it and null both fields. -/
def DetachW (st : Phantom) (w : World) : Phantom × World :=
  match st.hProcess with
  | some h => (⟨none, 0⟩, w.erase h)
  | none => (st, w)

/-- Attach: Detach first, then OpenProcess; on success store handle and pid. -/
def AttachW (st : Phantom) (w : World) (env : OSEnv) (pid rights : Nat) :
    Phantom × World × Bool :=
  let dw := DetachW st w
  match env.openProcess pid rights with
  | some h => ((⟨some h, pid⟩ : Phantom), dw.2 ++ [h], true)
  | none => (dw.1, dw.2, false)

/-- Move constructor: steal both fields, null the source. -/
def moveCtor (other : Phantom) : Phantom × Phantom :=
  ((⟨other.hProcess, other.processId⟩ : Phantom), (⟨none, 0⟩ : Phantom))

/-- Move assignment (non-self case): Detach the destination, steal the
source fields, null the source. Returns (dest, source, world). -/
def moveAssign (dst src : Phantom) (w : World) : Phantom × Phantom × World :=
  let dw := DetachW dst w
  ((⟨src.hProcess, src.processId⟩ : Phantom), (⟨none, 0⟩ : Phantom), dw.2)

/-- Address plus signed int offset with uintptr_t wraparound. -/
def addOff (a : Nat) (o : Int) : Nat :=
  (((a : Int) + o).emod (2 ^ 64)).toNat

/-- Deposit bytes at the front of a buffer, as ReadProcessMemory does;
extra source bytes beyond the buffer are dropped, the rest of the
buffer keeps its prior contents. -/
def fillBuffer : List Nat → List Nat → List Nat
  | [], _ => []
  | i :: is, [] => i :: is
  | _ :: is, b :: bs => b :: fillBuffer is bs

/-- Little-endian unsigned decode of a byte list. -/
def decodeU (bs : List Nat) : Nat :=
  bs.foldr (fun b acc => b + 256 * acc) 0

/-- Two-complement 32-bit signed decode. -/
def decodeI32 (bs : List Nat) : Int :=
  let u : Nat := decodeU bs % 2 ^ 32
  if u < 2 ^ 31 then (u : Int) else (u : Int) - 2 ^ 32

/-- InternalRead of the template header: guard on null handle and zero
address, then ReadProcessMemory; the success flag also requires the
reported count to equal sizeof. Returns (flag, buffer contents). -/
def InternalRead (st : Phantom) (env : OSEnv) (addr sz : Nat) (init : List Nat) :
    Bool × List Nat :=
  if st.hProcess.isNone || addr == 0 then (false, init)
  else
    match env.rpm addr sz with
    | none => (false, init)
    | some bs => (bs.length == sz, fillBuffer init bs)

/-- InternalWrite of the template header: guard, then WriteProcessMemory
with the reported count compared against sizeof. -/
def InternalWrite (st : Phantom) (env : OSEnv) (addr : Nat) (data : List Nat) : Bool :=
  if st.hProcess.isNone || addr == 0 then false
  else
    match env.wpm addr data with
    | none => false
    | some bw => bw == data.length

/-- Common body of the fixed-size value reads: a zero-initialised value,
InternalRead into it, and the value returned with the flag discarded,
exactly as ReadInt and its siblings do in the source. -/
def ReadFixed (st : Phantom) (env : OSEnv) (addr sz : Nat) : List Nat :=
  (InternalRead st env addr sz (List.replicate sz 0)).2

def ReadInt (st : Phantom) (env : OSEnv) (addr : Nat) : Int :=
  decodeI32 (ReadFixed st env addr 4)

def ReadIntOff (st : Phantom) (env : OSEnv) (a : Nat) (o : Int) : Int :=
  ReadInt st env (addOff a o)

def ReadIntOpt (st : Phantom) (env : OSEnv) : Option Nat → Int
  | some a => ReadInt st env a
  | none => 0

def ReadIntOptOff (st : Phantom) (env : OSEnv) : Option Nat → Int → Int
  | some a, o => ReadInt st env (addOff a o)
  | none, _ => 0

def ReadFloat (st : Phantom) (env : OSEnv) (addr : Nat) : List Nat :=
  ReadFixed st env addr 4

def ReadFloatOff (st : Phantom) (env : OSEnv) (a : Nat) (o : Int) : List Nat :=
  ReadFloat st env (addOff a o)

def ReadFloatOpt (st : Phantom) (env : OSEnv) : Option Nat → List Nat
  | some a => ReadFloat st env a
  | none => List.replicate 4 0

def ReadFloatOptOff (st : Phantom) (env : OSEnv) : Option Nat → Int → List Nat
  | some a, o => ReadFloat st env (addOff a o)
  | none, _ => List.replicate 4 0

def ReadDouble (st : Phantom) (env : OSEnv) (addr : Nat) : List Nat :=
  ReadFixed st env addr 8

def ReadDoubleOff (st : Phantom) (env : OSEnv) (a : Nat) (o : Int) : List Nat :=
  ReadDouble st env (addOff a o)

def ReadDoubleOpt (st : Phantom) (env : OSEnv) : Option Nat → List Nat
  | some a => ReadDouble st env a
  | none => List.replicate 8 0

def ReadDoubleOptOff (st : Phantom) (env : OSEnv) : Option Nat → Int → List Nat
  | some a, o => ReadDouble st env (addOff a o)
  | none, _ => List.replicate 8 0

def ReadShort (st : Phantom) (env : OSEnv) (addr : Nat) : List Nat :=
  ReadFixed st env addr 2

def ReadShortOff (st : Phantom) (env : OSEnv) (a : Nat) (o : Int) : List Nat :=
  ReadShort st env (addOff a o)

def ReadShortOpt (st : Phantom) (env : OSEnv) : Option Nat → List Nat
  | some a => ReadShort st env a
  | none => List.replicate 2 0

def ReadShortOptOff (st : Phantom) (env : OSEnv) : Option Nat → Int → List Nat
  | some a, o => ReadShort st env (addOff a o)
  | none, _ => List.replicate 2 0

def ReadUShort (st : Phantom) (env : OSEnv) (addr : Nat) : List Nat :=
  ReadFixed st env addr 2

def ReadUShortOff (st : Phantom) (env : OSEnv) (a : Nat) (o : Int) : List Nat :=
  ReadUShort st env (addOff a o)

def ReadUShortOpt (st : Phantom) (env : OSEnv) : Option Nat → List Nat
  | some a => ReadUShort st env a
  | none => List.replicate 2 0

def ReadUShortOptOff (st : Phantom) (env : OSEnv) : Option Nat → Int → List Nat
  | some a, o => ReadUShort st env (addOff a o)
  | none, _ => List.replicate 2 0

def ReadUInt (st : Phantom) (env : OSEnv) (addr : Nat) : List Nat :=
  ReadFixed st env addr 4

def ReadUIntOff (st : Phantom) (env : OSEnv) (a : Nat) (o : Int) : List Nat :=
  ReadUInt st env (addOff a o)

def ReadUIntOpt (st : Phantom) (env : OSEnv) : Option Nat → List Nat
  | some a => ReadUInt st env a
  | none => List.replicate 4 0

def ReadUIntOptOff (st : Phantom) (env : OSEnv) : Option Nat → Int → List Nat
  | some a, o => ReadUInt st env (addOff a o)
  | none, _ => List.replicate 4 0

def ReadULong (st : Phantom) (env : OSEnv) (addr : Nat) : List Nat :=
  ReadFixed st env addr 8

def ReadULongOff (st : Phantom) (env : OSEnv) (a : Nat) (o : Int) : List Nat :=
  ReadULong st env (addOff a o)

def ReadULongOpt (st : Phantom) (env : OSEnv) : Option Nat → List Nat
  | some a => ReadULong st env a
  | none => List.replicate 8 0

def ReadULongOptOff (st : Phantom) (env : OSEnv) : Option Nat → Int → List Nat
  | some a, o => ReadULong st env (addOff a o)
  | none, _ => List.replicate 8 0

def ReadLong (st : Phantom) (env : OSEnv) (addr : Nat) : List Nat :=
  ReadFixed st env addr 8

def ReadLongOff (st : Phantom) (env : OSEnv) (a : Nat) (o : Int) : List Nat :=
  ReadLong st env (addOff a o)

def ReadLongOpt (st : Phantom) (env : OSEnv) : Option Nat → List Nat
  | some a => ReadLong st env a
  | none => List.replicate 8 0

def ReadLongOptOff (st : Phantom) (env : OSEnv) : Option Nat → Int → List Nat
  | some a, o => ReadLong st env (addOff a o)
  | none, _ => List.replicate 8 0

def ReadBool (st : Phantom) (env : OSEnv) (addr : Nat) : List Nat :=
  ReadFixed st env addr 1

def ReadBoolOff (st : Phantom) (env : OSEnv) (a : Nat) (o : Int) : List Nat :=
  ReadBool st env (addOff a o)

def ReadBoolOpt (st : Phantom) (env : OSEnv) : Option Nat → List Nat
  | some a => ReadBool st env a
  | none => List.replicate 1 0

def ReadBoolOptOff (st : Phantom) (env : OSEnv) : Option Nat → Int → List Nat
  | some a, o => ReadBool st env (addOff a o)
  | none, _ => List.replicate 1 0

def ReadChar (st : Phantom) (env : OSEnv) (addr : Nat) : List Nat :=
  ReadFixed st env addr 1

def ReadCharOff (st : Phantom) (env : OSEnv) (a : Nat) (o : Int) : List Nat :=
  ReadChar st env (addOff a o)

def ReadCharOpt (st : Phantom) (env : OSEnv) : Option Nat → List Nat
  | some a => ReadChar st env a
  | none => List.replicate 1 0

def ReadCharOptOff (st : Phantom) (env : OSEnv) : Option Nat → Int → List Nat
  | some a, o => ReadChar st env (addOff a o)
  | none, _ => List.replicate 1 0

def ReadByte (st : Phantom) (env : OSEnv) (addr : Nat) : List Nat :=
  ReadFixed st env addr 1

def ReadByteOff (st : Phantom) (env : OSEnv) (a : Nat) (o : Int) : List Nat :=
  ReadByte st env (addOff a o)

def ReadByteOpt (st : Phantom) (env : OSEnv) : Option Nat → List Nat
  | some a => ReadByte st env a
  | none => List.replicate 1 0

def ReadByteOptOff (st : Phantom) (env : OSEnv) : Option Nat → Int → List Nat
  | some a, o => ReadByte st env (addOff a o)
  | none, _ => List.replicate 1 0

/-- ReadPtr of the cpp variant: a plain integer result, zero on failure. -/
def ReadPtr (st : Phantom) (env : OSEnv) (addr : Nat) : Nat :=
  decodeU (ReadFixed st env addr 8)

def ReadPtrOff (st : Phantom) (env : OSEnv) (a : Nat) (o : Int) : Nat :=
  ReadPtr st env (addOff a o)

def ReadPtrOpt (st : Phantom) (env : OSEnv) : Option Nat → Nat
  | some a => ReadPtr st env a
  | none => 0

def ReadPtrOptOff (st : Phantom) (env : OSEnv) : Option Nat → Int → Nat
  | some a, o => ReadPtr st env (addOff a o)
  | none, _ => 0

/-- Construction of std::string from a buffer: characters up to but
excluding the first zero byte. -/
def cppString (buf : List Nat) : List Nat :=
  buf.takeWhile (fun b => b != 0)

/-- ReadString: guard, read length bytes into a length+1 buffer of
zeroes, terminate at index length, take up to the first zero. The
reported byte count is not compared against the requested length. -/
def ReadString (st : Phantom) (env : OSEnv) (addr len : Nat) : List Nat :=
  if st.hProcess.isNone || addr == 0 || len == 0 then []
  else
    match env.rpm addr len with
    | none => []
    | some bs => cppString ((fillBuffer (List.replicate (len + 1) 0) bs).set len 0)

def ReadStringOff (st : Phantom) (env : OSEnv) (a : Nat) (o : Int) (len : Nat) : List Nat :=
  ReadString st env (addOff a o) len

def ReadStringOpt (st : Phantom) (env : OSEnv) : Option Nat → Nat → List Nat
  | some a, len => ReadString st env a len
  | none, _ => []

def ReadStringOptOff (st : Phantom) (env : OSEnv) : Option Nat → Int → Nat → List Nat
  | some a, o, len => ReadString st env (addOff a o) len
  | none, _, _ => []

/-- Group a byte list into 16-bit wide characters, little endian; a
trailing lone byte fills only the low half of its character. -/
def pairUp : List Nat → List Nat
  | [] => []
  | [a] => [a]
  | a :: b :: r => (a + 256 * b) :: pairUp r

/-- ReadWString: as ReadString but over wide characters; the transfer
is 2 * len bytes into a len+1 wide-character buffer of zeroes. -/
def ReadWString (st : Phantom) (env : OSEnv) (addr len : Nat) : List Nat :=
  if st.hProcess.isNone || addr == 0 || len == 0 then []
  else
    match env.rpm addr (2 * len) with
    | none => []
    | some bs =>
        cppString ((pairUp (fillBuffer (List.replicate (2 * (len + 1)) 0) bs)).set len 0)

def ReadWStringOff (st : Phantom) (env : OSEnv) (a : Nat) (o : Int) (len : Nat) : List Nat :=
  ReadWString st env (addOff a o) len

def ReadWStringOpt (st : Phantom) (env : OSEnv) : Option Nat → Nat → List Nat
  | some a, len => ReadWString st env a len
  | none, _ => []

def ReadWStringOptOff (st : Phantom) (env : OSEnv) : Option Nat → Int → Nat → List Nat
  | some a, o, len => ReadWString st env (addOff a o) len
  | none, _, _ => []

/-- ReadVec3 consults the InternalRead flag and falls back to the zero
vector on failure. -/
def ReadVec3 (st : Phantom) (env : OSEnv) (addr : Nat) : List Nat :=
  let r := InternalRead st env addr 12 (List.replicate 12 0)
  if r.1 then r.2 else List.replicate 12 0

def ReadVec3Off (st : Phantom) (env : OSEnv) (a : Nat) (o : Int) : List Nat :=
  ReadVec3 st env (addOff a o)

def ReadVec3Opt (st : Phantom) (env : OSEnv) : Option Nat → List Nat
  | some a => ReadVec3 st env a
  | none => List.replicate 12 0

def ReadVec3OptOff (st : Phantom) (env : OSEnv) : Option Nat → Int → List Nat
  | some a, o => ReadVec3 st env (addOff a o)
  | none, _ => List.replicate 12 0

/-- ReadMatrix is the one read with an optional result: the InternalRead
flag decides between some buffer and none. -/
def ReadMatrix (st : Phantom) (env : OSEnv) (addr : Nat) : Option (List Nat) :=
  let r := InternalRead st env addr 64 (List.replicate 64 0)
  if r.1 then some r.2 else none

def ReadMatrixOff (st : Phantom) (env : OSEnv) (a : Nat) (o : Int) : Option (List Nat) :=
  ReadMatrix st env (addOff a o)

def ReadMatrixOpt (st : Phantom) (env : OSEnv) : Option Nat → Option (List Nat)
  | some a => ReadMatrix st env a
  | none => none

def ReadMatrixOptOff (st : Phantom) (env : OSEnv) : Option Nat → Int → Option (List Nat)
  | some a, o => ReadMatrix st env (addOff a o)
  | none, _ => none

/-- InternalReadBytes: a zero-filled buffer of the requested size is
returned unread when the guard fires; an OS failure or short count
yields the empty vector. -/
def InternalReadBytes (st : Phantom) (env : OSEnv) (addr sz : Nat) : List Nat :=
  let buffer := List.replicate sz 0
  if st.hProcess.isNone || addr == 0 || sz == 0 then buffer
  else
    match env.rpm addr sz with
    | none => []
    | some bs => if bs.length == sz then fillBuffer buffer bs else []

def ReadBytes (st : Phantom) (env : OSEnv) (addr sz : Nat) : List Nat :=
  InternalReadBytes st env addr sz

def ReadBytesOff (st : Phantom) (env : OSEnv) (a : Nat) (o : Int) (sz : Nat) : List Nat :=
  InternalReadBytes st env (addOff a o) sz

def ReadBytesOpt (st : Phantom) (env : OSEnv) : Option Nat → Nat → List Nat
  | some a, sz => ReadBytes st env a sz
  | none, _ => []

def ReadBytesOptOff (st : Phantom) (env : OSEnv) : Option Nat → Int → Nat → List Nat
  | some a, o, sz => ReadBytes st env (addOff a o) sz
  | none, _, _ => []

def WriteInt (st : Phantom) (env : OSEnv) (addr : Nat) (v : List Nat) : Bool :=
  InternalWrite st env addr v

def WriteIntOff (st : Phantom) (env : OSEnv) (a : Nat) (o : Int) (v : List Nat) : Bool :=
  WriteInt st env (addOff a o) v

def WriteIntOpt (st : Phantom) (env : OSEnv) : Option Nat → List Nat → Bool
  | some a, v => WriteInt st env a v
  | none, _ => false

def WriteIntOptOff (st : Phantom) (env : OSEnv) : Option Nat → Int → List Nat → Bool
  | some a, o, v => WriteInt st env (addOff a o) v
  | none, _, _ => false

def WriteFloat (st : Phantom) (env : OSEnv) (addr : Nat) (v : List Nat) : Bool :=
  InternalWrite st env addr v

def WriteFloatOff (st : Phantom) (env : OSEnv) (a : Nat) (o : Int) (v : List Nat) : Bool :=
  WriteFloat st env (addOff a o) v

def WriteFloatOpt (st : Phantom) (env : OSEnv) : Option Nat → List Nat → Bool
  | some a, v => WriteFloat st env a v
  | none, _ => false

def WriteFloatOptOff (st : Phantom) (env : OSEnv) : Option Nat → Int → List Nat → Bool
  | some a, o, v => WriteFloat st env (addOff a o) v
  | none, _, _ => false

def WriteDouble (st : Phantom) (env : OSEnv) (addr : Nat) (v : List Nat) : Bool :=
  InternalWrite st env addr v

def WriteDoubleOff (st : Phantom) (env : OSEnv) (a : Nat) (o : Int) (v : List Nat) : Bool :=
  WriteDouble st env (addOff a o) v

def WriteDoubleOpt (st : Phantom) (env : OSEnv) : Option Nat → List Nat → Bool
  | some a, v => WriteDouble st env a v
  | none, _ => false

def WriteDoubleOptOff (st : Phantom) (env : OSEnv) : Option Nat → Int → List Nat → Bool
  | some a, o, v => WriteDouble st env (addOff a o) v
  | none, _, _ => false

def WriteShort (st : Phantom) (env : OSEnv) (addr : Nat) (v : List Nat) : Bool :=
  InternalWrite st env addr v

def WriteShortOff (st : Phantom) (env : OSEnv) (a : Nat) (o : Int) (v : List Nat) : Bool :=
  WriteShort st env (addOff a o) v

def WriteShortOpt (st : Phantom) (env : OSEnv) : Option Nat → List Nat → Bool
  | some a, v => WriteShort st env a v
  | none, _ => false

def WriteShortOptOff (st : Phantom) (env : OSEnv) : Option Nat → Int → List Nat → Bool
  | some a, o, v => WriteShort st env (addOff a o) v
  | none, _, _ => false

def WriteUShort (st : Phantom) (env : OSEnv) (addr : Nat) (v : List Nat) : Bool :=
  InternalWrite st env addr v

def WriteUShortOff (st : Phantom) (env : OSEnv) (a : Nat) (o : Int) (v : List Nat) : Bool :=
  WriteUShort st env (addOff a o) v

def WriteUShortOpt (st : Phantom) (env : OSEnv) : Option Nat → List Nat → Bool
  | some a, v => WriteUShort st env a v
  | none, _ => false

def WriteUShortOptOff (st : Phantom) (env : OSEnv) : Option Nat → Int → List Nat → Bool
  | some a, o, v => WriteUShort st env (addOff a o) v
  | none, _, _ => false

def WriteUInt (st : Phantom) (env : OSEnv) (addr : Nat) (v : List Nat) : Bool :=
  InternalWrite st env addr v

def WriteUIntOff (st : Phantom) (env : OSEnv) (a : Nat) (o : Int) (v : List Nat) : Bool :=
  WriteUInt st env (addOff a o) v

def WriteUIntOpt (st : Phantom) (env : OSEnv) : Option Nat → List Nat → Bool
  | some a, v => WriteUInt st env a v
  | none, _ => false

def WriteUIntOptOff (st : Phantom) (env : OSEnv) : Option Nat → Int → List Nat → Bool
  | some a, o, v => WriteUInt st env (addOff a o) v
  | none, _, _ => false

def WriteULong (st : Phantom) (env : OSEnv) (addr : Nat) (v : List Nat) : Bool :=
  InternalWrite st env addr v

def WriteULongOff (st : Phantom) (env : OSEnv) (a : Nat) (o : Int) (v : List Nat) : Bool :=
  WriteULong st env (addOff a o) v

def WriteULongOpt (st : Phantom) (env : OSEnv) : Option Nat → List Nat → Bool
  | some a, v => WriteULong st env a v
  | none, _ => false

def WriteULongOptOff (st : Phantom) (env : OSEnv) : Option Nat → Int → List Nat → Bool
  | some a, o, v => WriteULong st env (addOff a o) v
  | none, _, _ => false

def WriteLong (st : Phantom) (env : OSEnv) (addr : Nat) (v : List Nat) : Bool :=
  InternalWrite st env addr v

def WriteLongOff (st : Phantom) (env : OSEnv) (a : Nat) (o : Int) (v : List Nat) : Bool :=
  WriteLong st env (addOff a o) v

def WriteLongOpt (st : Phantom) (env : OSEnv) : Option Nat → List Nat → Bool
  | some a, v => WriteLong st env a v
  | none, _ => false

def WriteLongOptOff (st : Phantom) (env : OSEnv) : Option Nat → Int → List Nat → Bool
  | some a, o, v => WriteLong st env (addOff a o) v
  | none, _, _ => false

def WriteBool (st : Phantom) (env : OSEnv) (addr : Nat) (v : List Nat) : Bool :=
  InternalWrite st env addr v

def WriteBoolOff (st : Phantom) (env : OSEnv) (a : Nat) (o : Int) (v : List Nat) : Bool :=
  WriteBool st env (addOff a o) v

def WriteBoolOpt (st : Phantom) (env : OSEnv) : Option Nat → List Nat → Bool
  | some a, v => WriteBool st env a v
  | none, _ => false

def WriteBoolOptOff (st : Phantom) (env : OSEnv) : Option Nat → Int → List Nat → Bool
  | some a, o, v => WriteBool st env (addOff a o) v
  | none, _, _ => false

def WriteChar (st : Phantom) (env : OSEnv) (addr : Nat) (v : List Nat) : Bool :=
  InternalWrite st env addr v

def WriteCharOff (st : Phantom) (env : OSEnv) (a : Nat) (o : Int) (v : List Nat) : Bool :=
  WriteChar st env (addOff a o) v

def WriteCharOpt (st : Phantom) (env : OSEnv) : Option Nat → List Nat → Bool
  | some a, v => WriteChar st env a v
  | none, _ => false

def WriteCharOptOff (st : Phantom) (env : OSEnv) : Option Nat → Int → List Nat → Bool
  | some a, o, v => WriteChar st env (addOff a o) v
  | none, _, _ => false

def WriteByte (st : Phantom) (env : OSEnv) (addr : Nat) (v : List Nat) : Bool :=
  InternalWrite st env addr v

def WriteByteOff (st : Phantom) (env : OSEnv) (a : Nat) (o : Int) (v : List Nat) : Bool :=
  WriteByte st env (addOff a o) v

def WriteByteOpt (st : Phantom) (env : OSEnv) : Option Nat → List Nat → Bool
  | some a, v => WriteByte st env a v
  | none, _ => false

def WriteByteOptOff (st : Phantom) (env : OSEnv) : Option Nat → Int → List Nat → Bool
  | some a, o, v => WriteByte st env (addOff a o) v
  | none, _, _ => false

def WriteVec3 (st : Phantom) (env : OSEnv) (addr : Nat) (v : List Nat) : Bool :=
  InternalWrite st env addr v

def WriteVec3Off (st : Phantom) (env : OSEnv) (a : Nat) (o : Int) (v : List Nat) : Bool :=
  WriteVec3 st env (addOff a o) v

def WriteVec3Opt (st : Phantom) (env : OSEnv) : Option Nat → List Nat → Bool
  | some a, v => WriteVec3 st env a v
  | none, _ => false

def WriteVec3OptOff (st : Phantom) (env : OSEnv) : Option Nat → Int → List Nat → Bool
  | some a, o, v => WriteVec3 st env (addOff a o) v
  | none, _, _ => false

def WriteMatrix (st : Phantom) (env : OSEnv) (addr : Nat) (v : List Nat) : Bool :=
  InternalWrite st env addr v

def WriteMatrixOff (st : Phantom) (env : OSEnv) (a : Nat) (o : Int) (v : List Nat) : Bool :=
  WriteMatrix st env (addOff a o) v

def WriteMatrixOpt (st : Phantom) (env : OSEnv) : Option Nat → List Nat → Bool
  | some a, v => WriteMatrix st env a v
  | none, _ => false

def WriteMatrixOptOff (st : Phantom) (env : OSEnv) : Option Nat → Int → List Nat → Bool
  | some a, o, v => WriteMatrix st env (addOff a o) v
  | none, _, _ => false

/-- WriteString: guard on null handle, zero address and empty value,
then WriteProcessMemory of the characters (no terminator) with the
reported count compared against the length. -/
def WriteString (st : Phantom) (env : OSEnv) (addr : Nat) (value : List Nat) : Bool :=
  if st.hProcess.isNone || addr == 0 || value.isEmpty then false
  else
    match env.wpm addr value with
    | none => false
    | some bw => bw == value.length

def WriteStringOff (st : Phantom) (env : OSEnv) (a : Nat) (o : Int) (value : List Nat) : Bool :=
  WriteString st env (addOff a o) value

def WriteStringOpt (st : Phantom) (env : OSEnv) : Option Nat → List Nat → Bool
  | some a, v => WriteString st env a v
  | none, _ => false

def WriteStringOptOff (st : Phantom) (env : OSEnv) : Option Nat → Int → List Nat → Bool
  | some a, o, v => WriteString st env (addOff a o) v
  | none, _, _ => false

/-- Object representation of a wide string: two little-endian bytes per
16-bit code unit. -/
def wideBytes (ws : List Nat) : List Nat :=
  ws.foldr (fun w acc => w % 256 :: w / 256 :: acc) []

/-- WriteWString: as WriteString over the 2-byte code units, with the
reported count compared against the byte length. -/
def WriteWString (st : Phantom) (env : OSEnv) (addr : Nat) (value : List Nat) : Bool :=
  if st.hProcess.isNone || addr == 0 || value.isEmpty then false
  else
    match env.wpm addr (wideBytes value) with
    | none => false
    | some bw => bw == 2 * value.length

def WriteWStringOff (st : Phantom) (env : OSEnv) (a : Nat) (o : Int) (value : List Nat) : Bool :=
  WriteWString st env (addOff a o) value

def WriteWStringOpt (st : Phantom) (env : OSEnv) : Option Nat → List Nat → Bool
  | some a, v => WriteWString st env a v
  | none, _ => false

def WriteWStringOptOff (st : Phantom) (env : OSEnv) : Option Nat → Int → List Nat → Bool
  | some a, o, v => WriteWString st env (addOff a o) v
  | none, _, _ => false

/-- WriteBytes: guard on null handle, zero address and empty data, then
WriteProcessMemory with the reported count compared against the size. -/
def WriteBytes (st : Phantom) (env : OSEnv) (addr : Nat) (data : List Nat) : Bool :=
  if st.hProcess.isNone || addr == 0 || data.isEmpty then false
  else
    match env.wpm addr data with
    | none => false
    | some bw => bw == data.length

def WriteBytesOff (st : Phantom) (env : OSEnv) (a : Nat) (o : Int) (data : List Nat) : Bool :=
  WriteBytes st env (addOff a o) data

def WriteBytesOpt (st : Phantom) (env : OSEnv) : Option Nat → List Nat → Bool
  | some a, d => WriteBytes st env a d
  | none, _ => false

def WriteBytesOptOff (st : Phantom) (env : OSEnv) : Option Nat → Int → List Nat → Bool
  | some a, o, d => WriteBytes st env (addOff a o) d
  | none, _, _ => false

/-- Lower-case an ASCII letter, as the C-locale stricmp does. -/
def lowerChar (c : Nat) : Nat :=
  if 65 ≤ c ∧ c ≤ 90 then c + 32 else c

/-- Case-insensitive string comparison of stricmp. -/
def striEq (a b : List Nat) : Bool :=
  a.map lowerChar == b.map lowerChar

/-- Base file name of a path: the suffix after the last backslash
(character 92), the whole path when it has none. -/
def baseName (path : List Nat) : List Nat :=
  path.foldl (fun acc c => if c == 92 then [] else acc ++ [c]) []

/-- An enumerated module matches when its name query succeeded and its
base file name equals the requested name case-insensitively; entries
whose name query failed are skipped. -/
def moduleMatches (e : ModEntry) (name : List Nat) : Bool :=
  match e.path with
  | none => false
  | some p => striEq (baseName p) name

/-- First enumerated matching module, in snapshot order. -/
def findFirstModule : List ModEntry → List Nat → Option Nat
  | [], _ => none
  | e :: rest, name =>
      if moduleMatches e name then some e.base else findFirstModule rest name

/-- FindModuleBase: none when not attached, when the enumeration fails,
or when no enumerated entry matches; otherwise the base of the first
match. -/
def FindModuleBase (st : Phantom) (env : OSEnv) (name : List Nat) : Option Nat :=
  if st.hProcess.isNone then none
  else
    match env.modules with
    | none => none
    | some ms => findFirstModule ms name

/-- Attached accessor holding handle 1 for process 7. -/
def stAttached : Phantom :=
  ⟨some 1, 7⟩

/-- Never-attached accessor, as default construction leaves it. -/
def stDetached : Phantom :=
  ⟨none, 0⟩

/-- Environment in which every OS call fails. -/
def envNone : OSEnv :=
  ⟨fun _ _ => none, fun _ _ => none, fun _ _ => none, none⟩

/-- Environment whose target memory at address 16 is all zero bytes:
every read there succeeds in full and returns zeroes. -/
def envZero : OSEnv :=
  ⟨fun a sz => if a == 16 then some (List.replicate sz 0) else none,
   fun _ _ => none, fun _ _ => none, none⟩

/-- Environment whose transfer at address 16 reports success but moves
fewer bytes than requested: a 4-byte read yields only [65, 66], an
8-byte read only [72, 0, 105], a 64-byte or 12-byte read a single
byte, and a write reports a single byte written. -/
def envShort : OSEnv :=
  ⟨fun a sz =>
      if a == 16 && sz == 4 then some [65, 66]
      else if a == 16 && sz == 8 then some [72, 0, 105]
      else if a == 16 && sz == 64 then some [9]
      else if a == 16 && sz == 12 then some [9]
      else none,
   fun a _ => if a == 16 then some 1 else none,
   fun _ _ => none, none⟩

/-- Environment holding a narrow text with an inner terminator at
address 16 and the analogous wide text at the same address. -/
def envTexts : OSEnv :=
  ⟨fun a sz =>
      if a == 16 && sz == 3 then some [72, 105, 0]
      else if a == 16 && sz == 6 then some [72, 0, 105, 0, 0, 0]
      else none,
   fun _ _ => none, fun _ _ => none, none⟩

/-- A read of sz bytes at addr genuinely succeeds: handle held, nonzero
address, and the OS transfer returns the full requested count. -/
def ReadOk (st : Phantom) (env : OSEnv) (addr sz : Nat) : Prop :=
  st.hProcess.isSome = true ∧ addr ≠ 0 ∧
    ∃ bs, env.rpm addr sz = some bs ∧ bs.length = sz

/-- ReadInt reports failure by explicit absence: its failure result 0 is
never produced by a genuinely successful read. -/
def readIntAbsencePolicy : Prop :=
  ∀ st env a, ReadOk st env a 4 → ReadInt st env a ≠ 0

/-- InternalReadBytes reports failure by explicit absence: its failure
result, the empty vector, is never produced by a successful read. -/
def readBytesAbsencePolicy : Prop :=
  ∀ st env a sz, sz ≠ 0 → ReadOk st env a sz → InternalReadBytes st env a sz ≠ []

/-- ReadMatrix reports failure by explicit absence: none is never
produced by a successful read. -/
def readMatrixAbsencePolicy : Prop :=
  ∀ st env a, ReadOk st env a 64 → ReadMatrix st env a ≠ none

/-- One failure-reporting policy applied uniformly: either every read
distinguishes failure from every legitimate result, or none does. -/
def uniformFailurePolicy : Prop :=
  (readIntAbsencePolicy ∧ readBytesAbsencePolicy ∧ readMatrixAbsencePolicy)
    ∨ (¬readIntAbsencePolicy ∧ ¬readBytesAbsencePolicy ∧ ¬readMatrixAbsencePolicy)

/-- Lifecycle invariant: without a live handle the stored process
identifier is zero. -/
def PidInv (st : Phantom) : Prop :=
  IsActive st = false → GetPID st = 0

theorem fillBuffer_length (init : List Nat) : ∀ bs : List Nat, (fillBuffer init bs).length = init.length := by
  induction init with
  | nil => intro bs; cases bs <;> rfl
  | cons i is ih =>
    intro bs
    cases bs with
    | nil => rfl
    | cons b bt => simp [fillBuffer, ih bt]

theorem fill_replicate : ∀ (bs : List Nat) (k : Nat), fillBuffer (List.replicate (bs.length + k) 0) bs = bs ++ List.replicate k 0 := by
  intro bs
  induction bs with
  | nil =>
    intro k
    simp only [List.length_nil, Nat.zero_add, List.nil_append]
    cases k with
    | zero => rfl
    | succ n => rfl
  | cons b t ih =>
    intro k
    have hlen : t.length + 1 + k = (t.length + k) + 1 := by omega
    rw [List.length_cons, hlen, List.replicate_succ]
    simp [fillBuffer, ih k]

theorem set_len_append (l r : List Nat) (v : Nat) : (l ++ r).set l.length v = l ++ r.set 0 v := by
  induction l with
  | nil => simp
  | cons a t ih => simp [List.set, ih]

theorem cpp_append_zero (bs : List Nat) : cppString (bs ++ [0]) = cppString bs := by
  induction bs with
  | nil => rfl
  | cons a t ih =>
    unfold cppString at *
    rw [List.cons_append, List.takeWhile_cons, List.takeWhile_cons]
    cases h : (a != 0) with
    | false => rfl
    | true => simp [ih]

theorem cppString_length_le (l : List Nat) : (cppString l).length ≤ l.length := by
  induction l with
  | nil => simp [cppString]
  | cons a t ih =>
    unfold cppString at *
    rw [List.takeWhile_cons]
    cases (a != 0) with
    | false => simp
    | true => simpa using ih

theorem cppString_mem (l : List Nat) (b : Nat) (hb : b ∈ cppString l) : b ≠ 0 := by
  have h2 := List.mem_takeWhile_imp hb
  simpa using h2

theorem cppString_all (l : List Nat) (h : ∀ b ∈ l, b ≠ 0) : cppString l = l := by
  induction l with
  | nil => rfl
  | cons a t ih =>
    have ha : (a != 0) = true := by simpa using h a (by simp)
    unfold cppString at *
    rw [List.takeWhile_cons, ha]
    simp [ih (fun b hb => h b (by simp [hb]))]

theorem pairUp_length : ∀ cs : List Nat, (pairUp cs).length = (cs.length + 1) / 2
  | [] => by simp [pairUp]
  | [_] => by simp [pairUp]
  | _ :: _ :: r => by
    simp [pairUp, pairUp_length r]
    omega

theorem pairUp_append_even : ∀ (cs ds : List Nat), cs.length % 2 = 0 → pairUp (cs ++ ds) = pairUp cs ++ pairUp ds
  | [], _, _ => rfl
  | [_], _, h => by simp at h
  | a :: b :: r, ds, h => by
    have hr : r.length % 2 = 0 := by
      simp only [List.length_cons] at h
      omega
    simp [pairUp, pairUp_append_even r ds hr]

theorem findFirstModule_none_iff (ms : List ModEntry) (name : List Nat) :
    findFirstModule ms name = none ↔ ∀ e ∈ ms, moduleMatches e name = false := by
  induction ms with
  | nil => simp [findFirstModule]
  | cons e rest ih =>
    cases h : moduleMatches e name with
    | true => simp [findFirstModule, h]
    | false => simp [findFirstModule, h, ih]

theorem findFirstModule_some_iff (ms : List ModEntry) (name : List Nat) (b : Nat) :
    findFirstModule ms name = some b ↔
      ∃ pre e post, ms = pre ++ e :: post
        ∧ (∀ e2 ∈ pre, moduleMatches e2 name = false)
        ∧ moduleMatches e name = true ∧ e.base = b := by
  induction ms with
  | nil =>
    simp only [findFirstModule]
    constructor
    · intro h; cases h
    · rintro ⟨pre, e, post, hsplit, -, -, -⟩
      simp at hsplit
  | cons e rest ih =>
    cases h : moduleMatches e name with
    | true =>
      simp only [findFirstModule, h, if_true]
      constructor
      · intro hb
        refine ⟨[], e, rest, rfl, by simp, h, ?_⟩
        exact Option.some.inj hb
      · rintro ⟨pre, e2, post, hsplit, hpre, hm2, hb2⟩
        cases pre with
        | nil =>
          simp only [List.nil_append, List.cons.injEq] at hsplit
          rw [← hb2, ← hsplit.1]
        | cons p pt =>
          simp only [List.cons_append, List.cons.injEq] at hsplit
          have hp : moduleMatches p name = false := hpre p (by simp)
          rw [← hsplit.1] at hp
          rw [h] at hp
          cases hp
    | false =>
      rw [show findFirstModule (e :: rest) name = findFirstModule rest name from by
        simp [findFirstModule, h]]
      rw [ih]
      constructor
      · rintro ⟨pre, e2, post, hsplit, hpre, hm2, hb2⟩
        refine ⟨e :: pre, e2, post, by simp [hsplit], ?_, hm2, hb2⟩
        intro x hx
        rcases List.mem_cons.mp hx with hx | hx
        · rw [hx]; exact h
        · exact hpre x hx
      · rintro ⟨pre, e2, post, hsplit, hpre, hm2, hb2⟩
        cases pre with
        | nil =>
          simp only [List.nil_append, List.cons.injEq] at hsplit
          rw [hsplit.1] at h
          rw [h] at hm2
          cases hm2
        | cons p pt =>
          simp only [List.cons_append, List.cons.injEq] at hsplit
          exact ⟨pt, e2, post, hsplit.2, fun x hx => hpre x (by simp [hx]), hm2, hb2⟩

theorem guard_false_of_ok (st : Phantom) (a : Nat) (hs : st.hProcess.isSome = true)
    (ha : a ≠ 0) : (st.hProcess.isNone || a == 0) = false := by
  cases hp : st.hProcess with
  | none => rw [hp] at hs; simp at hs
  | some v => simp [hp, ha]

theorem readMatrix_absence : readMatrixAbsencePolicy := by
  intro st env a h
  obtain ⟨hs, ha, bs, hbs, hlen⟩ := h
  have hg := guard_false_of_ok st a hs ha
  simp [ReadMatrix, InternalRead, hg, hbs, hlen]

theorem readBytes_absence : readBytesAbsencePolicy := by
  intro st env a sz hsz h
  obtain ⟨hs, ha, bs, hbs, hlen⟩ := h
  have hg := guard_false_of_ok st a hs ha
  have hg2 : (st.hProcess.isNone || a == 0 || sz == 0) = false := by
    simp only [Bool.or_eq_false_iff] at hg ⊢
    exact ⟨hg, by simpa using hsz⟩
  have hne : fillBuffer (List.replicate sz 0) bs ≠ [] := by
    intro hcon
    have := fillBuffer_length (List.replicate sz 0) bs
    rw [hcon] at this
    simp at this
    exact hsz this.symm
  simpa [InternalReadBytes, hg2, hbs, hlen] using hne

theorem readInt_not_absence : ¬ readIntAbsencePolicy := by
  intro h
  have hok : ReadOk stAttached envZero 16 4 :=
    ⟨rfl, by decide, List.replicate 4 0, rfl, by decide⟩
  exact h stAttached envZero 16 hok (by decide)

theorem pidInv_detach (st : Phantom) (w : World) (hst : PidInv st) :
    PidInv (DetachW st w).1 := by
  cases hp : st.hProcess with
  | some v =>
    simp only [DetachW, hp]
    intro _
    rfl
  | none =>
    simp only [DetachW, hp]
    exact hst

theorem pidInv_attach (st : Phantom) (w : World) (env : OSEnv) (pid rights : Nat)
    (hst : PidInv st) : PidInv (AttachW st w env pid rights).1 := by
  unfold AttachW
  cases ho : env.openProcess pid rights with
  | some v =>
    intro hF
    simp [IsActive] at hF
  | none =>
    simp only
    exact pidInv_detach st w hst

/-- C1 counterexample: the claim that the cpp read surface applies one
failure-reporting policy uniformly is false. ReadMatrix reports failure
as explicit absence (none, never produced by a genuinely successful
read), while ReadInt reports failure as the sentinel 0, which a
successful read of four zero bytes also produces, so no single policy
covers both. -/
theorem c1_counterexample : ¬ uniformFailurePolicy := by
  rintro (⟨hint, -, -⟩ | ⟨-, -, hnm⟩)
  · exact readInt_not_absence hint
  · exact hnm readMatrix_absence

/-- C1 amended: the policy is mixed, not uniform. ReadMatrix (and the
byte-block read) distinguish failure from every successful result,
while ReadInt collapses failure onto the legitimate value 0. -/
theorem c1_amended_mixed_policy :
    readMatrixAbsencePolicy ∧ readBytesAbsencePolicy ∧ ¬ readIntAbsencePolicy :=
  ⟨readMatrix_absence, readBytes_absence, readInt_not_absence⟩

/-- C2 counterexample: ReadPtr applied to an unresolved optional address
yields the address value 0, not an unresolved result, already at a
concrete attached state and environment. -/
theorem c2_counterexample :
    ReadPtrOpt stAttached envZero none = 0 ∧ ReadPtrOptOff stAttached envZero none 8 = 0 :=
  ⟨rfl, rfl⟩

/-- C2 amended: the cpp pointer-chain steps taking an optional address
collapse an unresolved input to the numeric sentinel 0, for every state,
environment and offset; the result type carries no unresolved marker. -/
theorem c2_amended_unresolved_collapses_to_zero (st : Phantom) (env : OSEnv) (o : Int) :
    ReadPtrOpt st env none = 0 ∧ ReadPtrOptOff st env none o = 0 :=
  ⟨rfl, rfl⟩

/-- C3 counterexample: a byte-range read with no process handle held
does not return the designated failure result (the empty vector used on
transfer failure); it returns a zero-filled vector of the requested
size, identical to what a genuinely successful read of zero bytes at an
attached state returns. -/
theorem c3_counterexample :
    InternalReadBytes stDetached envZero 16 3 = [0, 0, 0]
    ∧ InternalReadBytes stAttached envZero 16 3 = [0, 0, 0]
    ∧ ([0, 0, 0] : List Nat) ≠ [] :=
  ⟨by decide, by decide, by decide⟩

/-- C3 amended: with a zero requested length or no process handle, the
byte-range transfers perform no OS call (the result is independent of
the environment), WriteBytes fails cleanly with false, but the read
returns a zero-filled vector of the requested length, which is the
empty failure vector only when the length itself is zero. -/
theorem c3_amended (st : Phantom) (env env2 : OSEnv) (a sz : Nat) (data : List Nat)
    (hr : sz = 0 ∨ st.hProcess = none) (hw : data = [] ∨ st.hProcess = none) :
    InternalReadBytes st env a sz = List.replicate sz 0
    ∧ InternalReadBytes st env a sz = InternalReadBytes st env2 a sz
    ∧ WriteBytes st env a data = false
    ∧ WriteBytes st env a data = WriteBytes st env2 a data := by
  have hgr : (st.hProcess.isNone || a == 0 || sz == 0) = true := by
    rcases hr with h | h
    · subst h; simp
    · simp [h]
  have hgw : (st.hProcess.isNone || a == 0 || data.isEmpty) = true := by
    rcases hw with h | h
    · subst h; simp
    · simp [h]
  refine ⟨?_, ?_, ?_, ?_⟩ <;> simp [InternalReadBytes, WriteBytes, hgr, hgw]

/-- C3 amended witness at a concrete detached state. -/
theorem c3_amended_witness :
    ((3 : Nat) = 0 ∨ stDetached.hProcess = none)
    ∧ (([1] : List Nat) = [] ∨ stDetached.hProcess = none)
    ∧ (InternalReadBytes stDetached envZero 16 3 = List.replicate 3 0
       ∧ InternalReadBytes stDetached envZero 16 3 = InternalReadBytes stDetached envNone 16 3
       ∧ WriteBytes stDetached envZero 16 [1] = false
       ∧ WriteBytes stDetached envZero 16 [1] = WriteBytes stDetached envNone 16 [1]) :=
  ⟨Or.inr rfl, Or.inr rfl,
    c3_amended stDetached envZero envNone 16 3 [1] (Or.inr rfl) (Or.inr rfl)⟩

/-- C4 counterexample: at an attached state, an OS read that reports
success with fewer bytes than requested is not treated as failure by
ReadString (2 of 4 bytes) nor by ReadWString (3 of 8 bytes): each
returns text built from the partially filled buffer instead of the
empty failure result, unlike the count check the fixed-size transfers
perform. -/
theorem c4_counterexample :
    envShort.rpm 16 4 = some [65, 66]
    ∧ ([65, 66] : List Nat).length ≠ 4
    ∧ ReadString stAttached envShort 16 4 = [65, 66]
    ∧ ([65, 66] : List Nat) ≠ []
    ∧ envShort.rpm 16 (2 * 4) = some [72, 0, 105]
    ∧ ([72, 0, 105] : List Nat).length ≠ 2 * 4
    ∧ ReadWString stAttached envShort 16 4 = [72, 105]
    ∧ ([72, 105] : List Nat) ≠ [] :=
  ⟨by decide, by decide, by decide, by decide, by decide, by decide, by decide, by decide⟩

/-- C4 amended: the transfers that compare the reported count do treat a
short transfer as failure: through the InternalRead flag ReadMatrix
returns none and ReadVec3 returns the zero vector, InternalReadBytes
returns the empty vector, and WriteBytes, WriteString and WriteWString
return false when the reported written count is short; but ReadString
and ReadWString accept any TRUE-returning call regardless of the
reported count and build their results from the partially filled
buffer. -/
theorem c4_amended (st : Phantom) (env : OSEnv) (a sz len bw : Nat)
    (bs ms vs cs data wdata : List Nat)
    (hs : st.hProcess.isSome = true) (ha : a ≠ 0) :
    (sz ≠ 0 → env.rpm a sz = some bs → bs.length ≠ sz → InternalReadBytes st env a sz = [])
    ∧ (env.rpm a 64 = some ms → ms.length ≠ 64 → ReadMatrix st env a = none)
    ∧ (env.rpm a 12 = some vs → vs.length ≠ 12 → ReadVec3 st env a = List.replicate 12 0)
    ∧ (data ≠ [] → env.wpm a data = some bw → bw ≠ data.length → WriteBytes st env a data = false)
    ∧ (data ≠ [] → env.wpm a data = some bw → bw ≠ data.length → WriteString st env a data = false)
    ∧ (wdata ≠ [] → env.wpm a (wideBytes wdata) = some bw → bw ≠ 2 * wdata.length →
        WriteWString st env a wdata = false)
    ∧ (len ≠ 0 → env.rpm a len = some bs →
        ReadString st env a len
          = cppString ((fillBuffer (List.replicate (len + 1) 0) bs).set len 0))
    ∧ (len ≠ 0 → env.rpm a (2 * len) = some cs →
        ReadWString st env a len
          = cppString ((pairUp (fillBuffer (List.replicate (2 * (len + 1)) 0) cs)).set len 0)) := by
  have hg := guard_false_of_ok st a hs ha
  refine ⟨?_, ?_, ?_, ?_, ?_, ?_, ?_, ?_⟩
  · intro hsz hrpm hlen
    have hg2 : (st.hProcess.isNone || a == 0 || sz == 0) = false := by
      simp only [Bool.or_eq_false_iff] at hg ⊢
      exact ⟨hg, by simpa using hsz⟩
    have hlen2 : (bs.length == sz) = false := by simpa using hlen
    simp [InternalReadBytes, hg2, hrpm, hlen2]
  · intro hrpm hlen
    have hlen2 : (ms.length == 64) = false := by simpa using hlen
    simp [ReadMatrix, InternalRead, hg, hrpm, hlen2]
  · intro hrpm hlen
    have hlen2 : (vs.length == 12) = false := by simpa using hlen
    simp [ReadVec3, InternalRead, hg, hrpm, hlen2]
  · intro hdata hwpm hbw
    have hg2 : (st.hProcess.isNone || a == 0 || data.isEmpty) = false := by
      simp only [Bool.or_eq_false_iff] at hg ⊢
      exact ⟨hg, by simpa using hdata⟩
    have hbw2 : (bw == data.length) = false := by simpa using hbw
    simp [WriteBytes, hg2, hwpm, hbw2]
  · intro hdata hwpm hbw
    have hg2 : (st.hProcess.isNone || a == 0 || data.isEmpty) = false := by
      simp only [Bool.or_eq_false_iff] at hg ⊢
      exact ⟨hg, by simpa using hdata⟩
    have hbw2 : (bw == data.length) = false := by simpa using hbw
    simp [WriteString, hg2, hwpm, hbw2]
  · intro hdata hwpm hbw
    have hg2 : (st.hProcess.isNone || a == 0 || wdata.isEmpty) = false := by
      simp only [Bool.or_eq_false_iff] at hg ⊢
      exact ⟨hg, by simpa using hdata⟩
    have hbw2 : (bw == 2 * wdata.length) = false := by simpa using hbw
    simp [WriteWString, hg2, hwpm, hbw2]
  · intro hlen hrpm
    have hg2 : (st.hProcess.isNone || a == 0 || len == 0) = false := by
      simp only [Bool.or_eq_false_iff] at hg ⊢
      exact ⟨hg, by simpa using hlen⟩
    simp [ReadString, hg2, hrpm]
  · intro hlen hrpm
    have hg2 : (st.hProcess.isNone || a == 0 || len == 0) = false := by
      simp only [Bool.or_eq_false_iff] at hg ⊢
      exact ⟨hg, by simpa using hlen⟩
    simp [ReadWString, hg2, hrpm]

/-- C4 amended witness at the concrete short-transfer environment,
exercising every conjunct: short reads of 4, 64, 12, 8 and 2 x 4 bytes
and short reported writes of narrow and wide data. -/
theorem c4_amended_witness :
    stAttached.hProcess.isSome = true
    ∧ (16 : Nat) ≠ 0
    ∧ (((4 : Nat) ≠ 0 → envShort.rpm 16 4 = some [65, 66] → ([65, 66] : List Nat).length ≠ 4 →
          InternalReadBytes stAttached envShort 16 4 = [])
       ∧ (envShort.rpm 16 64 = some [9] → ([9] : List Nat).length ≠ 64 →
          ReadMatrix stAttached envShort 16 = none)
       ∧ (envShort.rpm 16 12 = some [9] → ([9] : List Nat).length ≠ 12 →
          ReadVec3 stAttached envShort 16 = List.replicate 12 0)
       ∧ (([1, 2] : List Nat) ≠ [] → envShort.wpm 16 [1, 2] = some 1 →
          (1 : Nat) ≠ ([1, 2] : List Nat).length → WriteBytes stAttached envShort 16 [1, 2] = false)
       ∧ (([1, 2] : List Nat) ≠ [] → envShort.wpm 16 [1, 2] = some 1 →
          (1 : Nat) ≠ ([1, 2] : List Nat).length → WriteString stAttached envShort 16 [1, 2] = false)
       ∧ (([66] : List Nat) ≠ [] → envShort.wpm 16 (wideBytes [66]) = some 1 →
          (1 : Nat) ≠ 2 * ([66] : List Nat).length → WriteWString stAttached envShort 16 [66] = false)
       ∧ ((4 : Nat) ≠ 0 → envShort.rpm 16 4 = some [65, 66] →
          ReadString stAttached envShort 16 4
            = cppString ((fillBuffer (List.replicate (4 + 1) 0) [65, 66]).set 4 0))
       ∧ ((4 : Nat) ≠ 0 → envShort.rpm 16 (2 * 4) = some [72, 0, 105] →
          ReadWString stAttached envShort 16 4
            = cppString ((pairUp (fillBuffer (List.replicate (2 * (4 + 1)) 0) [72, 0, 105])).set 4 0))) :=
  ⟨rfl, by decide,
    c4_amended stAttached envShort 16 4 4 1 [65, 66] [9] [9] [72, 0, 105] [1, 2] [66]
      rfl (by decide)⟩

/-- C7: moving an attached accessor, by construction or assignment,
transfers handle ownership exactly once: the destination is active and
holds the source handle, the source is inactive, and detaching or
destroying the moved-from source leaves the handle table untouched, so
the handle now owned by the destination is not released. -/
theorem c7_move_transfer (src dst : Phantom) (h : Nat) (w : World)
    (hsrc : src.hProcess = some h) :
    IsActive (moveCtor src).1 = true
    ∧ IsActive (moveCtor src).2 = false
    ∧ (moveCtor src).1.hProcess = some h
    ∧ DetachW (moveCtor src).2 w = ((moveCtor src).2, w)
    ∧ IsActive (moveAssign dst src w).1 = true
    ∧ IsActive (moveAssign dst src w).2.1 = false
    ∧ (moveAssign dst src w).1.hProcess = some h
    ∧ DetachW (moveAssign dst src w).2.1 (moveAssign dst src w).2.2
        = ((moveAssign dst src w).2.1, (moveAssign dst src w).2.2) := by
  simp [moveCtor, moveAssign, DetachW, IsActive, hsrc]

/-- C7 witness at a concrete attached source. -/
theorem c7_move_transfer_witness :
    stAttached.hProcess = some 1
    ∧ (IsActive (moveCtor stAttached).1 = true
       ∧ IsActive (moveCtor stAttached).2 = false
       ∧ (moveCtor stAttached).1.hProcess = some 1
       ∧ DetachW (moveCtor stAttached).2 [1] = ((moveCtor stAttached).2, [1])
       ∧ IsActive (moveAssign stDetached stAttached [1]).1 = true
       ∧ IsActive (moveAssign stDetached stAttached [1]).2.1 = false
       ∧ (moveAssign stDetached stAttached [1]).1.hProcess = some 1
       ∧ DetachW (moveAssign stDetached stAttached [1]).2.1
             (moveAssign stDetached stAttached [1]).2.2
           = ((moveAssign stDetached stAttached [1]).2.1,
              (moveAssign stDetached stAttached [1]).2.2)) :=
  ⟨rfl, c7_move_transfer stAttached stDetached 1 [1] rfl⟩

/-- C9: the invariant that an inactive accessor reports process id 0 is
preserved by default construction, by Attach whether OpenProcess
succeeds or fails, by Detach, and by both components of move
construction and move assignment. -/
theorem c9_pid_invariant (st dst : Phantom) (w : World) (env : OSEnv) (pid rights : Nat)
    (hst : PidInv st) :
    PidInv (⟨none, 0⟩ : Phantom)
    ∧ PidInv (AttachW st w env pid rights).1
    ∧ PidInv (DetachW st w).1
    ∧ PidInv (moveCtor st).1
    ∧ PidInv (moveCtor st).2
    ∧ PidInv (moveAssign dst st w).1
    ∧ PidInv (moveAssign dst st w).2.1 := by
  refine ⟨fun _ => rfl, pidInv_attach st w env pid rights hst, pidInv_detach st w hst,
    ?_, fun _ => rfl, ?_, fun _ => rfl⟩
  · intro hF
    exact hst hF
  · intro hF
    exact hst hF

/-- C9 witness at a concrete attached state and failing OpenProcess. -/
theorem c9_pid_invariant_witness :
    PidInv stAttached
    ∧ (PidInv (⟨none, 0⟩ : Phantom)
       ∧ PidInv (AttachW stAttached [1] envNone 9 5).1
       ∧ PidInv (DetachW stAttached [1]).1
       ∧ PidInv (moveCtor stAttached).1
       ∧ PidInv (moveCtor stAttached).2
       ∧ PidInv (moveAssign stDetached stAttached [1]).1
       ∧ PidInv (moveAssign stDetached stAttached [1]).2.1) :=
  ⟨fun hF => by simp [stAttached, IsActive] at hF,
    c9_pid_invariant stAttached stDetached [1] envNone 9 5
      (fun hF => by simp [stAttached, IsActive] at hF)⟩

/-- C5: for every supported value type and both optional-address
overload shapes (with and without offset), an unresolved address
short-circuits to the designated default or failure result of that
type, and writes fail with false. Every equation holds for every
environment, so no OS transfer influences the result. -/
theorem c5_unresolved_short_circuit (st : Phantom) (env : OSEnv) (o : Int)
    (len sz : Nat) (v : List Nat) :
    ReadIntOpt st env none = 0 ∧ ReadIntOptOff st env none o = 0
    ∧ ReadFloatOpt st env none = List.replicate 4 0
    ∧ ReadFloatOptOff st env none o = List.replicate 4 0
    ∧ ReadDoubleOpt st env none = List.replicate 8 0
    ∧ ReadDoubleOptOff st env none o = List.replicate 8 0
    ∧ ReadShortOpt st env none = List.replicate 2 0
    ∧ ReadShortOptOff st env none o = List.replicate 2 0
    ∧ ReadUShortOpt st env none = List.replicate 2 0
    ∧ ReadUShortOptOff st env none o = List.replicate 2 0
    ∧ ReadUIntOpt st env none = List.replicate 4 0
    ∧ ReadUIntOptOff st env none o = List.replicate 4 0
    ∧ ReadULongOpt st env none = List.replicate 8 0
    ∧ ReadULongOptOff st env none o = List.replicate 8 0
    ∧ ReadLongOpt st env none = List.replicate 8 0
    ∧ ReadLongOptOff st env none o = List.replicate 8 0
    ∧ ReadBoolOpt st env none = List.replicate 1 0
    ∧ ReadBoolOptOff st env none o = List.replicate 1 0
    ∧ ReadCharOpt st env none = List.replicate 1 0
    ∧ ReadCharOptOff st env none o = List.replicate 1 0
    ∧ ReadByteOpt st env none = List.replicate 1 0
    ∧ ReadByteOptOff st env none o = List.replicate 1 0
    ∧ ReadPtrOpt st env none = 0 ∧ ReadPtrOptOff st env none o = 0
    ∧ ReadStringOpt st env none len = [] ∧ ReadStringOptOff st env none o len = []
    ∧ ReadWStringOpt st env none len = [] ∧ ReadWStringOptOff st env none o len = []
    ∧ ReadVec3Opt st env none = List.replicate 12 0
    ∧ ReadVec3OptOff st env none o = List.replicate 12 0
    ∧ ReadMatrixOpt st env none = none ∧ ReadMatrixOptOff st env none o = none
    ∧ ReadBytesOpt st env none sz = [] ∧ ReadBytesOptOff st env none o sz = []
    ∧ WriteIntOpt st env none v = false ∧ WriteIntOptOff st env none o v = false
    ∧ WriteFloatOpt st env none v = false ∧ WriteFloatOptOff st env none o v = false
    ∧ WriteDoubleOpt st env none v = false ∧ WriteDoubleOptOff st env none o v = false
    ∧ WriteShortOpt st env none v = false ∧ WriteShortOptOff st env none o v = false
    ∧ WriteUShortOpt st env none v = false ∧ WriteUShortOptOff st env none o v = false
    ∧ WriteUIntOpt st env none v = false ∧ WriteUIntOptOff st env none o v = false
    ∧ WriteULongOpt st env none v = false ∧ WriteULongOptOff st env none o v = false
    ∧ WriteLongOpt st env none v = false ∧ WriteLongOptOff st env none o v = false
    ∧ WriteBoolOpt st env none v = false ∧ WriteBoolOptOff st env none o v = false
    ∧ WriteCharOpt st env none v = false ∧ WriteCharOptOff st env none o v = false
    ∧ WriteByteOpt st env none v = false ∧ WriteByteOptOff st env none o v = false
    ∧ WriteStringOpt st env none v = false ∧ WriteStringOptOff st env none o v = false
    ∧ WriteWStringOpt st env none v = false ∧ WriteWStringOptOff st env none o v = false
    ∧ WriteVec3Opt st env none v = false ∧ WriteVec3OptOff st env none o v = false
    ∧ WriteMatrixOpt st env none v = false ∧ WriteMatrixOptOff st env none o v = false
    ∧ WriteBytesOpt st env none v = false ∧ WriteBytesOptOff st env none o v = false :=
  ⟨rfl, rfl, rfl, rfl, rfl, rfl, rfl, rfl, rfl, rfl, rfl, rfl, rfl, rfl, rfl, rfl,
   rfl, rfl, rfl, rfl, rfl, rfl, rfl, rfl, rfl, rfl, rfl, rfl, rfl, rfl, rfl, rfl,
   rfl, rfl, rfl, rfl, rfl, rfl, rfl, rfl, rfl, rfl, rfl, rfl, rfl, rfl, rfl, rfl,
   rfl, rfl, rfl, rfl, rfl, rfl, rfl, rfl, rfl, rfl, rfl, rfl, rfl, rfl, rfl, rfl,
   rfl, rfl⟩

/-- C8: for every supported value type, the offset-taking read and write
overloads equal the direct overloads at the summed address, the sum
being the uintptr_t wraparound of address plus signed offset that the
source computes. -/
theorem c8_offset_delegation (st : Phantom) (env : OSEnv) (a : Nat) (o : Int)
    (len sz : Nat) (v : List Nat) :
    ReadIntOff st env a o = ReadInt st env (addOff a o)
    ∧ ReadFloatOff st env a o = ReadFloat st env (addOff a o)
    ∧ ReadDoubleOff st env a o = ReadDouble st env (addOff a o)
    ∧ ReadShortOff st env a o = ReadShort st env (addOff a o)
    ∧ ReadUShortOff st env a o = ReadUShort st env (addOff a o)
    ∧ ReadUIntOff st env a o = ReadUInt st env (addOff a o)
    ∧ ReadULongOff st env a o = ReadULong st env (addOff a o)
    ∧ ReadLongOff st env a o = ReadLong st env (addOff a o)
    ∧ ReadBoolOff st env a o = ReadBool st env (addOff a o)
    ∧ ReadCharOff st env a o = ReadChar st env (addOff a o)
    ∧ ReadByteOff st env a o = ReadByte st env (addOff a o)
    ∧ ReadPtrOff st env a o = ReadPtr st env (addOff a o)
    ∧ ReadStringOff st env a o len = ReadString st env (addOff a o) len
    ∧ ReadWStringOff st env a o len = ReadWString st env (addOff a o) len
    ∧ ReadVec3Off st env a o = ReadVec3 st env (addOff a o)
    ∧ ReadMatrixOff st env a o = ReadMatrix st env (addOff a o)
    ∧ ReadBytesOff st env a o sz = ReadBytes st env (addOff a o) sz
    ∧ WriteIntOff st env a o v = WriteInt st env (addOff a o) v
    ∧ WriteFloatOff st env a o v = WriteFloat st env (addOff a o) v
    ∧ WriteDoubleOff st env a o v = WriteDouble st env (addOff a o) v
    ∧ WriteShortOff st env a o v = WriteShort st env (addOff a o) v
    ∧ WriteUShortOff st env a o v = WriteUShort st env (addOff a o) v
    ∧ WriteUIntOff st env a o v = WriteUInt st env (addOff a o) v
    ∧ WriteULongOff st env a o v = WriteULong st env (addOff a o) v
    ∧ WriteLongOff st env a o v = WriteLong st env (addOff a o) v
    ∧ WriteBoolOff st env a o v = WriteBool st env (addOff a o) v
    ∧ WriteCharOff st env a o v = WriteChar st env (addOff a o) v
    ∧ WriteByteOff st env a o v = WriteByte st env (addOff a o) v
    ∧ WriteStringOff st env a o v = WriteString st env (addOff a o) v
    ∧ WriteWStringOff st env a o v = WriteWString st env (addOff a o) v
    ∧ WriteVec3Off st env a o v = WriteVec3 st env (addOff a o) v
    ∧ WriteMatrixOff st env a o v = WriteMatrix st env (addOff a o) v
    ∧ WriteBytesOff st env a o v = WriteBytes st env (addOff a o) v :=
  ⟨rfl, rfl, rfl, rfl, rfl, rfl, rfl, rfl, rfl, rfl, rfl, rfl, rfl, rfl, rfl, rfl,
   rfl, rfl, rfl, rfl, rfl, rfl, rfl, rfl, rfl, rfl, rfl, rfl, rfl, rfl, rfl, rfl,
   rfl⟩

/-- C6: FindModuleBase returns some b exactly when the accessor is
attached, the module enumeration succeeds, and b is the base of the
first enumerated entry that matches the requested base file name
case-insensitively, no earlier entry matching; and returns none exactly
when the accessor is not attached, the enumeration fails, or no
enumerated entry matches. -/
theorem c6_findModuleBase_spec (st : Phantom) (env : OSEnv) (name : List Nat) (b : Nat) :
    (FindModuleBase st env name = some b ↔
      IsActive st = true ∧ ∃ ms, env.modules = some ms ∧
        ∃ pre e post, ms = pre ++ e :: post
          ∧ (∀ e2 ∈ pre, moduleMatches e2 name = false)
          ∧ moduleMatches e name = true ∧ e.base = b)
    ∧ (FindModuleBase st env name = none ↔
      IsActive st = false ∨ env.modules = none ∨
        ∃ ms, env.modules = some ms ∧ ∀ e ∈ ms, moduleMatches e name = false) := by
  cases hp : st.hProcess with
  | none =>
    simp [FindModuleBase, IsActive, hp]
  | some h =>
    cases hm : env.modules with
    | none =>
      simp [FindModuleBase, IsActive, hp, hm]
    | some ms =>
      simp [FindModuleBase, IsActive, hp, hm, findFirstModule_some_iff,
        findFirstModule_none_iff]

/-- C10: on a successful full transfer, ReadString returns exactly the
prefix of the read bytes up to but excluding the first zero byte, all
of them when none is zero, so its result never exceeds the requested
length and never contains an embedded zero; ReadWString behaves the
same over 16-bit wide characters. -/
theorem c10_string_read_spec (st : Phantom) (env : OSEnv) (a len : Nat) (bs cs : List Nat)
    (hs : st.hProcess.isSome = true) (ha : a ≠ 0) (hl : len ≠ 0) :
    (env.rpm a len = some bs → bs.length = len →
      ReadString st env a len = cppString bs
      ∧ (ReadString st env a len).length ≤ len
      ∧ (∀ b2 ∈ ReadString st env a len, b2 ≠ 0)
      ∧ ((∀ b2 ∈ bs, b2 ≠ 0) → ReadString st env a len = bs))
    ∧ (env.rpm a (2 * len) = some cs → cs.length = 2 * len →
      ReadWString st env a len = cppString (pairUp cs)
      ∧ (ReadWString st env a len).length ≤ len
      ∧ (∀ u ∈ ReadWString st env a len, u ≠ 0)
      ∧ ((∀ u ∈ pairUp cs, u ≠ 0) → ReadWString st env a len = pairUp cs)) := by
  have hg := guard_false_of_ok st a hs ha
  have hgl : (st.hProcess.isNone || a == 0 || len == 0) = false := by
    simp only [Bool.or_eq_false_iff] at hg ⊢
    exact ⟨hg, by simpa using hl⟩
  constructor
  · intro hrpm hblen
    have hmain : ReadString st env a len = cppString bs := by
      have h1 : ReadString st env a len
          = cppString ((fillBuffer (List.replicate (len + 1) 0) bs).set len 0) := by
        simp [ReadString, hgl, hrpm]
      rw [h1]
      rw [show List.replicate (len + 1) 0 = List.replicate (bs.length + 1) 0 by rw [hblen]]
      rw [fill_replicate bs 1]
      rw [show (List.replicate 1 0 : List Nat) = [0] from rfl]
      rw [show len = bs.length from hblen.symm]
      rw [set_len_append bs [0] 0]
      rw [show ([0] : List Nat).set 0 0 = [0] from rfl]
      exact cpp_append_zero bs
    refine ⟨hmain, ?_, ?_, ?_⟩
    · rw [hmain, ← hblen]
      exact cppString_length_le bs
    · intro b2 hb
      rw [hmain] at hb
      exact cppString_mem bs b2 hb
    · intro hall
      rw [hmain]
      exact cppString_all bs hall
  · intro hrpm hclen
    have hplen : (pairUp cs).length = len := by
      rw [pairUp_length cs]
      omega
    have hmain : ReadWString st env a len = cppString (pairUp cs) := by
      have h1 : ReadWString st env a len
          = cppString ((pairUp (fillBuffer (List.replicate (2 * (len + 1)) 0) cs)).set len 0) := by
        simp [ReadWString, hgl, hrpm]
      rw [h1]
      have h2v : 2 * (len + 1) = cs.length + 2 := by omega
      rw [show List.replicate (2 * (len + 1)) 0 = List.replicate (cs.length + 2) 0 from by
        rw [h2v]]
      rw [fill_replicate cs 2]
      rw [show (List.replicate 2 0 : List Nat) = [0, 0] from rfl]
      have heven : cs.length % 2 = 0 := by omega
      rw [pairUp_append_even cs [0, 0] heven]
      rw [show pairUp [0, 0] = [0] from rfl]
      rw [show len = (pairUp cs).length from hplen.symm]
      rw [set_len_append (pairUp cs) [0] 0]
      rw [show ([0] : List Nat).set 0 0 = [0] from rfl]
      exact cpp_append_zero (pairUp cs)
    refine ⟨hmain, ?_, ?_, ?_⟩
    · rw [hmain, ← hplen]
      exact cppString_length_le (pairUp cs)
    · intro u hu
      rw [hmain] at hu
      exact cppString_mem (pairUp cs) u hu
    · intro hall
      rw [hmain]
      exact cppString_all (pairUp cs) hall

/-- C10 witness at a concrete environment holding the narrow text
[72, 105, 0] and the wide text with units [72, 105, 0] at address 16. -/
theorem c10_string_read_spec_witness :
    stAttached.hProcess.isSome = true
    ∧ (16 : Nat) ≠ 0
    ∧ (3 : Nat) ≠ 0
    ∧ ((envTexts.rpm 16 3 = some [72, 105, 0] → ([72, 105, 0] : List Nat).length = 3 →
          ReadString stAttached envTexts 16 3 = cppString [72, 105, 0]
          ∧ (ReadString stAttached envTexts 16 3).length ≤ 3
          ∧ (∀ b2 ∈ ReadString stAttached envTexts 16 3, b2 ≠ 0)
          ∧ ((∀ b2 ∈ ([72, 105, 0] : List Nat), b2 ≠ 0) →
              ReadString stAttached envTexts 16 3 = [72, 105, 0]))
       ∧ (envTexts.rpm 16 (2 * 3) = some [72, 0, 105, 0, 0, 0] →
          ([72, 0, 105, 0, 0, 0] : List Nat).length = 2 * 3 →
          ReadWString stAttached envTexts 16 3 = cppString (pairUp [72, 0, 105, 0, 0, 0])
          ∧ (ReadWString stAttached envTexts 16 3).length ≤ 3
          ∧ (∀ u ∈ ReadWString stAttached envTexts 16 3, u ≠ 0)
          ∧ ((∀ u ∈ pairUp [72, 0, 105, 0, 0, 0], u ≠ 0) →
              ReadWString stAttached envTexts 16 3 = pairUp [72, 0, 105, 0, 0, 0]))) :=
  ⟨rfl, by decide, by decide,
    c10_string_read_spec stAttached envTexts 16 3 [72, 105, 0] [72, 0, 105, 0, 0, 0]
      rfl (by decide) (by decide)⟩
